import Mathlib

/-!
Verification of the real-time presence and broadcast subsystem of the
koordinator_app backend, a shallow embedding of
`backend/app/core/websocket_manager.py`, `backend/app/core/redis_manager.py`
and `backend/app/core/rate_limit.py`.

Python `dict`s (insertion ordered, unique keys) are embedded as association
lists; `dict.__setitem__` replaces the value in place for an existing key and
appends a new key at the end, `dict.__delitem__`/`pop` removes the entry, and
`set` objects are embedded as duplicate-free lists where `set.add` appends a
missing element and `set.discard` filters it out.  `WebSocket` handles,
user ids and channel ids are opaque and embedded as `Nat`.
-/

set_option autoImplicit false

/-- `d[k]` / `d.get(k)` on an association list: first matching entry. -/
def dictGet {κ α : Type} [DecidableEq κ] : List (κ × α) → κ → Option α
  | [], _ => none
  | e :: d, k => if e.1 = k then some e.2 else dictGet d k

/-- `d[k] = v` on an association list: replace the first matching entry in
place, or append the new entry at the end (Python dict insertion order). -/
def dictSet {κ α : Type} [DecidableEq κ] : List (κ × α) → κ → α → List (κ × α)
  | [], k, v => [(k, v)]
  | e :: d, k, v => if e.1 = k then (k, v) :: d else e :: dictSet d k v

/-- `del d[k]` / `d.pop(k, None)` on an association list. -/
def dictDel {κ α : Type} [DecidableEq κ] (d : List (κ × α)) (k : κ) : List (κ × α) :=
  d.filter (fun e => e.1 ≠ k)

/-- `s.add(x)` on a Python set embedded as a duplicate-free list. -/
def setAdd (s : List Nat) (x : Nat) : List Nat :=
  if x ∈ s then s else s ++ [x]

/-- `lst.remove(x)` with the `ValueError` swallowed: drop the first
occurrence of `x`, or leave the list unchanged when `x` is absent. -/
def removeFirst : List Nat → Nat → List Nat
  | [], _ => []
  | x :: xs, y => if x = y then xs else x :: removeFirst xs y

/-- The channel-scoped part of `WebSocketManager`'s state:
`active_connections : channel_id -> [(websocket, user_id)]` and
`channel_users : channel_id -> set of user_ids`
(`websocket_manager.py`, `__init__`). -/
structure ChanState where
  active_connections : List (Nat × List (Nat × Nat))
  channel_users : List (Nat × List Nat)
deriving DecidableEq, Repr

/-- The empty `WebSocketManager` channel state. -/
def ChanState.empty : ChanState := ⟨[], []⟩

/-- `WebSocketManager.connect(websocket, channel_id, user_id, is_member)`,
the state transition of `websocket_manager.py` lines 72-118.  The
`websocket.accept()` call and the trailing presence broadcast do not change
the membership state and are omitted here; the broadcastless part is embedded
statement by statement. -/
def ChanState.connect (s : ChanState) (websocket channel_id user_id : Nat)
    (is_member : Bool) : ChanState :=
  -- if channel_id not in self.active_connections: create [] and set()
  let s0 : ChanState :=
    if (dictGet s.active_connections channel_id).isNone then
      { active_connections := dictSet s.active_connections channel_id [],
        channel_users := dictSet s.channel_users channel_id [] }
    else s
  let conns := (dictGet s0.active_connections channel_id).getD []
  -- if is_member and no existing connection of this user (of either kind):
  -- self.channel_users[channel_id].add(user_id)
  let users1 := setAdd ((dictGet s0.channel_users channel_id).getD []) user_id
  let s1 : ChanState :=
    if is_member && !(conns.any (fun p => p.2 = user_id)) then
      { s0 with channel_users := dictSet s0.channel_users channel_id users1 }
    else s0
  -- self.active_connections[channel_id].append((websocket, user_id))
  { s1 with active_connections :=
      dictSet s1.active_connections channel_id (conns ++ [(websocket, user_id)]) }

/-- `WebSocketManager.disconnect(websocket, channel_id, user_id)`, the state
transition of `websocket_manager.py` lines 156-189 (again without the
trailing presence broadcast, which does not change membership state). -/
def ChanState.disconnect (s : ChanState) (websocket channel_id user_id : Nat) :
    ChanState :=
  match dictGet s.active_connections channel_id with
  | none => s
  | some conns0 =>
    -- keep only tuples whose websocket differs from the one removed
    let conns := conns0.filter (fun p => p.1 ≠ websocket)
    let s1 : ChanState :=
      { s with active_connections := dictSet s.active_connections channel_id conns }
    let remaining := conns.any (fun p => p.2 = user_id)
    let users1 :=
      ((dictGet s1.channel_users channel_id).getD []).filter (fun u => u ≠ user_id)
    let s2 : ChanState :=
      if !remaining && (dictGet s1.channel_users channel_id).isSome then
        { s1 with channel_users := dictSet s1.channel_users channel_id users1 }
      else s1
    if conns.isEmpty then
      { active_connections := dictDel s2.active_connections channel_id,
        channel_users := dictDel s2.channel_users channel_id }
    else s2

/-- `WebSocketManager.get_online_count(channel_id)`
(`websocket_manager.py` lines 300-309): size of the local counted-member
set of the channel. -/
def ChanState.get_online_count (s : ChanState) (channel_id : Nat) : Nat :=
  ((dictGet s.channel_users channel_id).getD []).length

/-- A join or leave event on a channel, the inputs of
`WebSocketManager.connect` / `WebSocketManager.disconnect`. -/
inductive ChEvent
  | connect (websocket channel_id user_id : Nat) (is_member : Bool)
  | disconnect (websocket channel_id user_id : Nat)
deriving DecidableEq, Repr

/-- Run a sequence of join/leave events from the empty manager state. -/
def runCh (events : List ChEvent) : ChanState :=
  events.foldl
    (fun s e =>
      match e with
      | .connect ws ch uid m => s.connect ws ch uid m
      | .disconnect ws ch uid => s.disconnect ws ch uid)
    ChanState.empty

/-- Ghost state for the specification side of C1: the list of live
connections together with the `is_counted_member` flag each one was joined
with.  `connect` adds the connection; `disconnect` removes every connection
with that websocket in that channel, exactly as the source's `disconnect`
filters `active_connections[channel_id]` by websocket. -/
def runLive (events : List ChEvent) : List (Nat × Nat × Nat × Bool) :=
  events.foldl
    (fun g e =>
      match e with
      | .connect ws ch uid m => g ++ [(ws, ch, uid, m)]
      | .disconnect ws ch _ => g.filter (fun c => ¬(c.1 = ws ∧ c.2.1 = ch)))
    []

/-- Modelled from the spec's words (the claim's reference count, not from the
source): the number of distinct users that currently have at least one
connection to the channel joined with `is_counted_member = true`. -/
def specCountedMembers (live : List (Nat × Nat × Nat × Bool)) (channel_id : Nat) : Nat :=
  ((live.filter (fun c => c.2.1 = channel_id ∧ c.2.2.2 = true)).map
    (fun c => c.2.2.1)).dedup.length

/-- Reading back the key just written: `d[k] = v` followed by `d[k]`. -/
theorem dictGet_dictSet {κ α : Type} [DecidableEq κ] (d : List (κ × α)) (k : κ) (v : α) :
    dictGet (dictSet d k v) k = some v := by
  induction d with
  | nil => simp [dictGet, dictSet]
  | cons e d ih => by_cases h : e.1 = k <;> simp [dictGet, dictSet, h, ih]

/-- C1: a user whose first live connection to a channel is a preview
(`is_member = false`) connection is never added to `channel_users` when a
counted-member connection follows, because `connect` checks for *any*
existing connection of the user rather than an existing counted-member
connection.  At the failing input (preview join of user 5, then member join
of user 5) `get_online_count` returns 0 while exactly one user has a live
`is_counted_member = true` connection, refuting the claimed invariant. -/
theorem c1_preview_then_member_count_bug :
    (runCh [.connect 1 1 5 false, .connect 2 1 5 true]).get_online_count 1 = 0 ∧
    specCountedMembers (runLive [.connect 1 1 5 false, .connect 2 1 5 true]) 1 = 1 := by
  decide

/-- C6 counterexample: a second `connect` with the same connection object is
not rejected: the duplicate tuple is appended to the channel's connection
list and the registry state changes. -/
theorem c6_duplicate_join_not_rejected :
    runCh [.connect 1 1 5 true, .connect 1 1 5 true] ≠ runCh [.connect 1 1 5 true] ∧
    dictGet (runCh [.connect 1 1 5 true, .connect 1 1 5 true]).active_connections 1
      = some [(1, 5), (1, 5)] := by
  decide

/-- C6 amended: `connect` performs no idempotency check on the connection
object.  If the user already has some connection registered in the channel,
a repeated `connect` appends one more `(websocket, user_id)` entry to the
channel's connection list and leaves the counted-member sets unchanged. -/
theorem c6_duplicate_join_appends (s : ChanState) (ws ch uid : Nat) (m : Bool)
    (conns : List (Nat × Nat))
    (h : dictGet s.active_connections ch = some conns)
    (hu : conns.any (fun p => p.2 = uid) = true) :
    (s.connect ws ch uid m).channel_users = s.channel_users ∧
    dictGet (s.connect ws ch uid m).active_connections ch = some (conns ++ [(ws, uid)]) := by
  simp only [ChanState.connect, h, Option.isNone_some, Bool.false_eq_true, if_false,
    Option.getD_some, hu, Bool.not_true, Bool.and_false]
  exact ⟨trivial, dictGet_dictSet _ _ _⟩

/-- C6 witness: the amended statement applied at a concrete registry holding
one connection `(ws 1, user 5)` in channel 1, re-joined by websocket 2 of the
same user. -/
theorem c6_duplicate_join_appends_witness :
    (dictGet (ChanState.mk [(1, [(1, 5)])] [(1, [5])]).active_connections 1
      = some [(1, 5)]) ∧
    (((ChanState.mk [(1, [(1, 5)])] [(1, [5])]).connect 2 1 5 true).channel_users
        = (ChanState.mk [(1, [(1, 5)])] [(1, [5])]).channel_users ∧
      dictGet ((ChanState.mk [(1, [(1, 5)])] [(1, [5])]).connect 2 1 5 true).active_connections 1
        = some ([(1, 5)] ++ [(2, 5)])) :=
  ⟨by decide, c6_duplicate_join_appends _ 2 1 5 true [(1, 5)] (by decide) (by decide)⟩

/-- `d[k]` after `del d[k]` is absent. -/
theorem dictGet_dictDel {κ α : Type} [DecidableEq κ] (d : List (κ × α)) (k : κ) :
    dictGet (dictDel d k) k = none := by
  induction d with
  | nil => rfl
  | cons e d ih =>
      by_cases h : e.1 = k <;>
        simp [dictGet, dictDel, List.filter_cons, h, ih] <;>
        simpa [dictDel] using ih

/-- An entry read from an association list is one of its members. -/
theorem mem_of_dictGet {κ α : Type} [DecidableEq κ] {d : List (κ × α)} {k : κ} {v : α}
    (h : dictGet d k = some v) : (k, v) ∈ d := by
  induction d with
  | nil => simp [dictGet] at h
  | cons e d ih =>
      obtain ⟨a, b⟩ := e
      by_cases he : a = k
      · subst he
        simp [dictGet] at h
        subst h
        exact List.mem_cons_self _ _
      · simp only [dictGet, he, if_false] at h
        exact List.mem_cons_of_mem _ (ih h)

/-- Methods that `websocket_manager.py` invokes on the `redis_manager`
singleton.  `redisDefines` records which of them `class RedisManager` in
`redis_manager.py` actually defines; a Python attribute lookup for an
undefined method name raises `AttributeError`.  `sadd`, `srem` and
`smembers` are called (lines 141, 152, 213, 264 of `websocket_manager.py`)
but defined nowhere in the repository. -/
inductive RMethod
  | connect | delete | subscribe | start_listener | publish
  | set_session_start | clear_session_start | get_session_start
  | sadd | srem | smembers
deriving DecidableEq, Repr

/-- Which referenced `redis_manager` methods `redis_manager.py` defines. -/
def redisDefines : RMethod → Bool
  | .sadd => false
  | .srem => false
  | .smembers => false
  | _ => true

/-- Exceptions of the embedded Python code paths. -/
inductive PyError
  | attributeError (method : RMethod)
  | typeError
deriving DecidableEq, Repr

/-- The user-scoped state of `WebSocketManager` together with the fallback
store's `"session_starts"` hash:
`user_connections : user_id -> [websocket]`,
`_local_session_starts : user_id -> timestamp`, plus the channel structures
shared with the channel operations.  Timestamps are `Nat`. -/
structure MgrState where
  active_connections : List (Nat × List (Nat × Nat))
  channel_users : List (Nat × List Nat)
  user_connections : List (Nat × List Nat)
  local_session_starts : List (Nat × Nat)
  shared_session_starts : List (Nat × Nat)
deriving DecidableEq, Repr

/-- Observable side effects of the manager's operations: websocket closes
and sends, per-channel presence broadcasts, local `user_presence`
broadcasts, and `user_presence` messages published to the shared backend. -/
inductive Emit
  | close (websocket code : Nat)
  | send (websocket message : Nat)
  | channelPresence (channel_id online_count : Nat)
  | userPresence (user_id : Nat) (online : Bool)
  | publishPresence (user_id : Nat) (online : Bool)
deriving DecidableEq, Repr

/-- `WebSocketManager.connect_user(websocket, user_id)`
(`websocket_manager.py` lines 120-147).  `redisAvailable` is
`redis_manager.is_available`.  On a first connection the session start is
recorded locally and through `redis_manager.set_session_start` (an `hset` on
the `"session_starts"` hash, supported in both modes), the websocket is
appended, and then — with a real backend — the code looks up the attribute
`redis_manager.sadd` before broadcasting the online presence event.  The
result is the new state, the emitted events and the raised exception, if
any; state mutated before a raise is kept, as in Python. -/
def connect_user (redisAvailable : Bool) (s : MgrState) (websocket user_id now : Nat) :
    MgrState × List Emit × Option PyError :=
  let isFirst := (dictGet s.user_connections user_id).isNone
  let s1 :=
    if isFirst then
      { s with
          user_connections := dictSet s.user_connections user_id [],
          local_session_starts := dictSet s.local_session_starts user_id now,
          shared_session_starts := dictSet s.shared_session_starts user_id now }
    else s
  let conns1 := (dictGet s1.user_connections user_id).getD []
  let s2 :=
    { s1 with user_connections := dictSet s1.user_connections user_id (conns1 ++ [websocket]) }
  if isFirst then
    if redisAvailable then
      if redisDefines .sadd then
        -- not reached: RedisManager defines no sadd method
        (s2, [Emit.publishPresence user_id true], none)
      else (s2, [], some (PyError.attributeError .sadd))
    else (s2, [Emit.userPresence user_id true], none)
  else (s2, [], none)

/-- Close events for every channel-scoped connection of the user, in channel
order then connection order, as iterated by `kick_user` step 2 and
`disconnect_user_sessions` step 2. -/
def channelCloses (ac : List (Nat × List (Nat × Nat))) (user_id code : Nat) : List Emit :=
  ac.flatMap (fun e => (e.2.filter (fun p => p.2 = user_id)).map (fun p => Emit.close p.1 code))

/-- `WebSocketManager.kick_user(user_id)` (`websocket_manager.py` lines
278-298): closes every global and channel-scoped connection of the user with
code 4003 ("Account disabled"), swallowing close failures, and performs no
registry mutation whatsoever. -/
def kick_user (s : MgrState) (user_id : Nat) : MgrState × List Emit :=
  let globalCloses :=
    ((dictGet s.user_connections user_id).getD []).map (fun ws => Emit.close ws 4003)
  (s, globalCloses ++ channelCloses s.active_connections user_id 4003)

/-- Step 3 of `disconnect_user_sessions`: for every channel in
`channel_users`, discard the user; where the user was present, broadcast the
updated `get_online_count` of that channel. -/
def removeUserFromChannels : List (Nat × List Nat) → Nat → List (Nat × List Nat) × List Emit
  | [], _ => ([], [])
  | e :: rest, user_id =>
    let r := removeUserFromChannels rest user_id
    if user_id ∈ e.2 then
      let users2 := e.2.filter (fun u => u ≠ user_id)
      ((e.1, users2) :: r.1, Emit.channelPresence e.1 users2.length :: r.2)
    else ((e.1, e.2) :: r.1, r.2)

/-- `WebSocketManager.disconnect_user_sessions(user_id)`
(`websocket_manager.py` lines 225-276): closes all of the user's connections
with code 1000 ("User logged out"), deletes the user's global entry,
discards the user from every channel's counted-member set (broadcasting
updated counts), then — with a real backend — looks up the undefined
attribute `redis_manager.srem` (line 264), otherwise broadcasts the offline
presence event and clears the local and shared session-start records.  The
per-channel connection lists `active_connections` are never touched. -/
def disconnect_user_sessions (redisAvailable : Bool) (s : MgrState) (user_id : Nat) :
    MgrState × List Emit × Option PyError :=
  let globalCloses :=
    ((dictGet s.user_connections user_id).getD []).map (fun ws => Emit.close ws 1000)
  let chCloses := channelCloses s.active_connections user_id 1000
  let s1 := { s with user_connections := dictDel s.user_connections user_id }
  let r := removeUserFromChannels s1.channel_users user_id
  let s2 := { s1 with channel_users := r.1 }
  if redisAvailable then
    if redisDefines .srem then
      -- not reached: RedisManager defines no srem method
      let s3 :=
        { s2 with
            local_session_starts := dictDel s2.local_session_starts user_id,
            shared_session_starts := dictDel s2.shared_session_starts user_id }
      (s3, globalCloses ++ chCloses ++ r.2 ++ [Emit.publishPresence user_id false], none)
    else (s2, globalCloses ++ chCloses ++ r.2, some (PyError.attributeError .srem))
  else
    let s3 :=
      { s2 with
          local_session_starts := dictDel s2.local_session_starts user_id,
          shared_session_starts := dictDel s2.shared_session_starts user_id }
    (s3, globalCloses ++ chCloses ++ r.2 ++ [Emit.userPresence user_id false], none)

/-- `user_id` arguments of `broadcast_to_user`: those for which
`int(user_id)` succeeds with value `n`, and those for which it raises
`ValueError` or `TypeError`. -/
inductive UserIdArg
  | convertible (n : Nat)
  | notConvertible
deriving DecidableEq, Repr

/-- `WebSocketManager.broadcast_to_user(user_id, message)`
(`websocket_manager.py` lines 336-350).  A failing `int(user_id)` conversion
is caught and logged; otherwise the message is sent to each registered
global connection of the user, to none when the user has no entry.  Every
exception path inside the method is caught, so the embedding is total. -/
def broadcast_to_user (s : MgrState) (user_id : UserIdArg) (message : Nat) :
    MgrState × List Emit :=
  match user_id with
  | .notConvertible => (s, [])
  | .convertible n =>
    let conns := (dictGet s.user_connections n).getD []
    (s, conns.map (fun ws => Emit.send ws message))

/-- The user has this websocket handle registered, globally or under some
channel. -/
def hasHandle (s : MgrState) (user_id ws : Nat) : Prop :=
  ws ∈ (dictGet s.user_connections user_id).getD [] ∨
    ∃ e ∈ s.active_connections, (ws, user_id) ∈ e.2

/-- Every channel-scoped connection handle of the user gets a close event. -/
theorem close_mem_channelCloses (ac : List (Nat × List (Nat × Nat))) (user_id code ws : Nat)
    (e : Nat × List (Nat × Nat)) (he : e ∈ ac) (hin : (ws, user_id) ∈ e.2) :
    Emit.close ws code ∈ channelCloses ac user_id code := by
  unfold channelCloses
  refine List.mem_flatMap.mpr ⟨e, he, ?_⟩
  exact List.mem_map.mpr ⟨(ws, user_id), List.mem_filter.mpr ⟨hin, by simp⟩, rfl⟩

/-- After `removeUserFromChannels`, no channel entry contains the user. -/
theorem not_mem_removeUserFromChannels (cu : List (Nat × List Nat)) (user_id : Nat) :
    ∀ e ∈ (removeUserFromChannels cu user_id).1, user_id ∉ e.2 := by
  induction cu with
  | nil => simp [removeUserFromChannels]
  | cons c rest ih =>
      intro e hmem
      by_cases hc : user_id ∈ c.2
      · simp only [removeUserFromChannels, if_pos hc] at hmem
        rcases List.mem_cons.mp hmem with h | h
        · subst h; simp
        · exact ih e h
      · simp only [removeUserFromChannels, if_neg hc] at hmem
        rcases List.mem_cons.mp hmem with h | h
        · subst h; exact hc
        · exact ih e h

/-- C2: evaluated on concrete inputs, `connect_user` in fallback mode behaves
as claimed — the first connection for user 7 records the session start
locally and in the shared hash and broadcasts the online presence event, a
second connection is a silent join changing no session record — but in the
real-backend case the claimed "without raising" fails: the first connection
for a user raises `AttributeError` at `redis_manager.sadd("ws:online_users",
...)`, because `RedisManager` defines no `sadd` method, before the online
event is ever broadcast. -/
theorem c2_connect_user_first_vs_later :
    (connect_user false ⟨[], [], [], [], []⟩ 1 7 100
      = (⟨[], [], [(7, [1])], [(7, 100)], [(7, 100)]⟩, [Emit.userPresence 7 true], none)) ∧
    (connect_user false ⟨[], [], [(7, [1])], [(7, 100)], [(7, 100)]⟩ 2 7 200
      = (⟨[], [], [(7, [1, 2])], [(7, 100)], [(7, 100)]⟩, [], none)) ∧
    (connect_user true ⟨[], [], [], [], []⟩ 1 7 100
      = (⟨[], [], [(7, [1])], [(7, 100)], [(7, 100)]⟩, [],
          some (PyError.attributeError RMethod.sadd))) := by
  decide

/-- C5 counterexample: for user 42 with one global connection (websocket 1)
and one channel-scoped connection (websocket 2 in channel 7), `kick_user`
closes both handles with code 4003 but performs no cleanup at all: the
registry state is returned unchanged, so the user's entries remain in every
membership structure (shown here for the global user connection set). -/
theorem c5_kick_user_leaves_residual_entries :
    (kick_user ⟨[(7, [(2, 42)])], [(7, [42])], [(42, [1])], [(42, 0)], [(42, 0)]⟩ 42).2
      = [Emit.close 1 4003, Emit.close 2 4003] ∧
    (kick_user ⟨[(7, [(2, 42)])], [(7, [42])], [(42, [1])], [(42, 0)], [(42, 0)]⟩ 42).1
      = ⟨[(7, [(2, 42)])], [(7, [42])], [(42, [1])], [(42, 0)], [(42, 0)]⟩ ∧
    dictGet (kick_user ⟨[(7, [(2, 42)])], [(7, [42])], [(42, [1])], [(42, 0)],
      [(42, 0)]⟩ 42).1.user_connections 42 = some [1] := by
  decide

/-- C5 amended: `kick_user` closes every connection handle of the user
(global and per-channel) with close code 4003 but mutates no registry
structure; the cleanup path is `disconnect_user_sessions`, which (in
fallback mode) removes the user from the global connection set, from every
channel's counted-member set and from the local and shared session records
without any debounce window — but leaves the user's tuples in the
per-channel connection lists `active_connections`. -/
theorem c5_forced_disconnect_cleanup (s : MgrState) (user_id : Nat) :
    (kick_user s user_id).1 = s ∧
    (∀ ws, hasHandle s user_id ws → Emit.close ws 4003 ∈ (kick_user s user_id).2) ∧
    dictGet (disconnect_user_sessions false s user_id).1.user_connections user_id = none ∧
    (∀ ch, user_id ∉ (dictGet (disconnect_user_sessions false s user_id).1.channel_users ch).getD []) ∧
    dictGet (disconnect_user_sessions false s user_id).1.local_session_starts user_id = none ∧
    dictGet (disconnect_user_sessions false s user_id).1.shared_session_starts user_id = none ∧
    (disconnect_user_sessions false s user_id).1.active_connections = s.active_connections := by
  refine ⟨rfl, ?_, dictGet_dictDel _ _, ?_, dictGet_dictDel _ _, dictGet_dictDel _ _, rfl⟩
  · intro ws h
    rcases h with h | ⟨e, he, hin⟩
    · exact List.mem_append.mpr (Or.inl (List.mem_map.mpr ⟨ws, h, rfl⟩))
    · exact List.mem_append.mpr (Or.inr (close_mem_channelCloses _ _ _ _ e he hin))
  · intro ch
    cases hq : dictGet (disconnect_user_sessions false s user_id).1.channel_users ch with
    | none => simp
    | some v =>
        simp only [Option.getD_some]
        exact not_mem_removeUserFromChannels s.channel_users user_id _ (mem_of_dictGet hq)

/-- C5 witness: the amended statement applied to the concrete registry of the
counterexample (user 42, global websocket 1, channel websocket 2). -/
theorem c5_forced_disconnect_cleanup_witness :
    hasHandle ⟨[(7, [(2, 42)])], [(7, [42])], [(42, [1])], [(42, 0)], [(42, 0)]⟩ 42 1 ∧
    Emit.close 1 4003 ∈
      (kick_user ⟨[(7, [(2, 42)])], [(7, [42])], [(42, [1])], [(42, 0)], [(42, 0)]⟩ 42).2 ∧
    dictGet (disconnect_user_sessions false
      ⟨[(7, [(2, 42)])], [(7, [42])], [(42, [1])], [(42, 0)], [(42, 0)]⟩ 42).1.user_connections 42
      = none := by
  have hh : hasHandle ⟨[(7, [(2, 42)])], [(7, [42])], [(42, [1])], [(42, 0)], [(42, 0)]⟩ 42 1 :=
    Or.inl (by decide)
  refine ⟨hh, ?_, ?_⟩
  · exact (c5_forced_disconnect_cleanup
      ⟨[(7, [(2, 42)])], [(7, [42])], [(42, [1])], [(42, 0)], [(42, 0)]⟩ 42).2.1 1 hh
  · exact (c5_forced_disconnect_cleanup
      ⟨[(7, [(2, 42)])], [(7, [42])], [(42, [1])], [(42, 0)], [(42, 0)]⟩ 42).2.2.1

/-- C10: `broadcast_to_user` with a `user_id` that `int()` cannot convert,
or with a converted id that has no registered connections, returns normally,
sends nothing and leaves the registry state unchanged (in the source every
exception path of the method is caught: the conversion failure is handled by
the `except (ValueError, TypeError)` clause, and the empty lookup uses
`dict.get` with a default). -/
theorem c10_broadcast_to_user_no_effect (s : MgrState) (message : Nat) :
    broadcast_to_user s .notConvertible message = (s, []) ∧
    ∀ n, dictGet s.user_connections n = none →
      broadcast_to_user s (.convertible n) message = (s, []) := by
  refine ⟨rfl, ?_⟩
  intro n h
  simp [broadcast_to_user, h]

/-- C10 witness: a registry holding connections for user 7 only, broadcast
to the unknown user 5. -/
theorem c10_broadcast_to_user_no_effect_witness :
    dictGet (MgrState.mk [] [] [(7, [1])] [] []).user_connections 5 = none ∧
    broadcast_to_user (MgrState.mk [] [] [(7, [1])] [] []) (.convertible 5) 3
      = (MgrState.mk [] [] [(7, [1])] [] [], []) :=
  ⟨by decide, (c10_broadcast_to_user_no_effect (MgrState.mk [] [] [(7, [1])] [] []) 3).2 5 (by decide)⟩

/-- The debounce delay of `disconnect_user` — `await asyncio.sleep(0.5)` —
in milliseconds. -/
def debounceMs : Nat := 500

/-- Per-user projection of the global presence machinery in fallback mode
(`redis_manager.is_available` is false, so the undefined `sadd`/`srem`
attributes are never looked up).  `connect_user` and `disconnect_user` only
touch the entries of the user they are given, so a single user's view is an
exact projection of the manager state: `conns` is `user_connections[uid]`
(the dict key exists iff the list is non-empty), `sessionStart` is
`_local_session_starts[uid]`, `sharedSession` the user's field of the
`"session_starts"` hash, `pending` holds the resume times of in-flight
`asyncio.sleep` debounce timers of `disconnect_user`, and `events` the
`user_presence` broadcasts emitted so far as `(time, online)` pairs. -/
structure PresenceState where
  conns : List Nat
  sessionStart : Option Nat
  sharedSession : Option Nat
  pending : List Nat
  events : List (Nat × Bool)
deriving DecidableEq, Repr

/-- The initial presence state of a user: no connections, no session. -/
def PresenceState.start : PresenceState := ⟨[], none, none, [], []⟩

/-- `connect_user(websocket, uid)` at time `t`, fallback mode, projected to
user `uid` (`websocket_manager.py` lines 120-147). -/
def connU (p : PresenceState) (ws t : Nat) : PresenceState :=
  let isFirst := p.conns.isEmpty
  let p1 := if isFirst then { p with sessionStart := some t, sharedSession := some t } else p
  let p2 := { p1 with conns := p1.conns ++ [ws] }
  if isFirst then { p2 with events := p2.events ++ [(t, true)] } else p2

/-- The immediate phase of `disconnect_user(websocket, uid)` at time `t`
(`websocket_manager.py` lines 191-208): remove the websocket (first
occurrence, `ValueError` swallowed); when the list empties, the dict entry
is deleted at once and the debounce sleep is scheduled to resume at
`t + debounceMs`. -/
def discU (p : PresenceState) (ws t : Nat) : PresenceState :=
  if p.conns.isEmpty then p
  else
    let conns1 := removeFirst p.conns ws
    let p1 := { p with conns := conns1 }
    if conns1.isEmpty then { p1 with pending := p1.pending ++ [t + debounceMs] } else p1

/-- The code after `await asyncio.sleep(0.5)` in `disconnect_user`
(`websocket_manager.py` lines 210-223), resuming at time `f`: if the user is
still absent from `user_connections`, broadcast the offline presence event
and clear the local and shared session records (the `redis_manager.srem`
branch is skipped in fallback mode). -/
def fireTimer (p : PresenceState) (f : Nat) : PresenceState :=
  if p.conns.isEmpty then
    { p with events := p.events ++ [(f, false)], sessionStart := none, sharedSession := none }
  else p

/-- Resume every debounce sleep due at or before `t`, in scheduling order. -/
def firePending (p : PresenceState) (t : Nat) : PresenceState :=
  let due := p.pending.filter (fun f => f ≤ t)
  let rest := p.pending.filter (fun f => t < f)
  due.foldl fireTimer { p with pending := rest }

/-- A timed operation on the user's global connection stream. -/
inductive UOp
  | conn (websocket : Nat)
  | disc (websocket : Nat)
deriving DecidableEq, Repr

/-- Process one timed operation: resume the debounce sleeps already due,
then run the handler. -/
def stepU (p : PresenceState) (e : Nat × UOp) : PresenceState :=
  let p1 := firePending p e.1
  match e.2 with
  | .conn ws => connU p1 ws e.1
  | .disc ws => discU p1 ws e.1

/-- Run a time-ordered trace of operations for one user. -/
def runU (tr : List (Nat × UOp)) : PresenceState :=
  tr.foldl stepU PresenceState.start

/-- The user's state as observed at time `q`: every operation arriving up to
`q` applied, every debounce sleep due by `q` resumed. -/
def stateAt (tr : List (Nat × UOp)) (q : Nat) : PresenceState :=
  firePending (runU (tr.filter (fun e => e.1 ≤ q))) q

/-- What fallback-mode `get_online_user_ids` reports for the user: listed
iff `user_connections` still has the key, i.e. iff `conns` is non-empty. -/
def reportsOnline (p : PresenceState) : Bool := !p.conns.isEmpty

/-- `WebSocketManager.get_online_user_ids()` (`websocket_manager.py` lines
149-154): with a real backend it looks up the undefined attribute
`redis_manager.smembers`; in fallback mode it lists the keys of
`user_connections`. -/
def get_online_user_ids (redisAvailable : Bool) (s : MgrState) : Except PyError (List Nat) :=
  if redisAvailable then
    if redisDefines .smembers then .ok [] else .error (.attributeError .smembers)
  else .ok (s.user_connections.map (fun e => e.1))

/-- Running one global connect at `t0` and the matching disconnect at `t1`:
the user's entry is deleted immediately and one debounce resume is pending. -/
theorem runU_conn_then_disc (t0 t1 w1 : Nat) :
    runU [(t0, UOp.conn w1), (t1, UOp.disc w1)]
      = ⟨[], some t0, some t0, [t1 + debounceMs], [(t0, true)]⟩ := by
  simp [runU, stepU, firePending, connU, discU, fireTimer, removeFirst, PresenceState.start]

/-- Connect, disconnect, then reconnect within the debounce window: the
reconnect is treated as a first connection — the session start is
overwritten and a second online event is emitted — while the debounce
resume stays pending. -/
theorem runU_conn_disc_conn (t0 t1 t2 w1 w2 : Nat) (h2w : t2 < t1 + debounceMs) :
    runU [(t0, UOp.conn w1), (t1, UOp.disc w1), (t2, UOp.conn w2)]
      = ⟨[w2], some t2, some t2, [t1 + debounceMs], [(t0, true), (t2, true)]⟩ := by
  have hnd : ¬ (t1 + debounceMs ≤ t2) := by omega
  simp [runU, stepU, firePending, connU, discU, fireTimer, removeFirst, PresenceState.start,
    hnd, h2w]

/-- C3 counterexample: in fallback mode the user stops being reported online
the moment the last connection closes, not after the debounce window.  With
the last disconnect at time 10 and the query at time 200 — strictly inside
the window, which ends at 510 — `get_online_user_ids` no longer lists the
user (the `user_connections` entry was deleted before the sleep), although
the offline event has indeed not yet been emitted. -/
theorem c3_online_report_not_debounced :
    (10:Nat) < 200 ∧ 200 < 10 + debounceMs ∧
    reportsOnline (stateAt [(0, UOp.conn 1), (10, UOp.disc 1)] 200) = false ∧
    (stateAt [(0, UOp.conn 1), (10, UOp.disc 1)] 200).events = [(0, true)] := by
  decide

/-- C3 amended: after the last global connection closes in fallback mode the
user is immediately absent from `get_online_user_ids`; what is debounced is
the offline *transition*: strictly within the window no offline event has
been emitted and the session records are intact, once the window expires
with the user still disconnected the offline event fires and the session
records are cleared, and if a reconnect arrives within the window no offline
event ever fires.  With a real backend `get_online_user_ids` instead raises
`AttributeError`, because `RedisManager` defines no `smembers` method. -/
theorem c3_debounce_applies_to_offline_event (s : MgrState) (t0 t1 w1 q : Nat)
    (h01 : t0 ≤ t1) :
    (t1 ≤ q → q < t1 + debounceMs →
      reportsOnline (stateAt [(t0, UOp.conn w1), (t1, UOp.disc w1)] q) = false ∧
      (stateAt [(t0, UOp.conn w1), (t1, UOp.disc w1)] q).events = [(t0, true)]) ∧
    (t1 + debounceMs ≤ q →
      (stateAt [(t0, UOp.conn w1), (t1, UOp.disc w1)] q).events
        = [(t0, true), (t1 + debounceMs, false)] ∧
      (stateAt [(t0, UOp.conn w1), (t1, UOp.disc w1)] q).sessionStart = none) ∧
    (∀ t2 w2, t1 < t2 → t2 < t1 + debounceMs →
      ((stateAt [(t0, UOp.conn w1), (t1, UOp.disc w1), (t2, UOp.conn w2)] q).events.filter
        (fun e => e.2 = false)) = []) ∧
    get_online_user_ids true s = .error (PyError.attributeError RMethod.smembers) := by
  refine ⟨?_, ?_, ?_, rfl⟩
  · intro hq1 hq2
    have ht0 : t0 ≤ q := le_trans h01 hq1
    have hnd : ¬ (t1 + debounceMs ≤ q) := by omega
    simp [stateAt, List.filter_cons, ht0, hq1, runU_conn_then_disc, firePending, hnd,
      reportsOnline]
  · intro hq
    have ht0 : t0 ≤ q := by omega
    have hq1 : t1 ≤ q := by omega
    have hnd : ¬ (q < t1 + debounceMs) := by omega
    simp [stateAt, List.filter_cons, ht0, hq1, runU_conn_then_disc, firePending, hq, hnd,
      fireTimer]
  · intro t2 w2 h12 h2w
    by_cases hq0 : t0 ≤ q
    · by_cases hq1 : t1 ≤ q
      · by_cases hq2 : t2 ≤ q
        · by_cases hf : t1 + debounceMs ≤ q
          · have h2 : ¬ (q < t1 + debounceMs) := by omega
            simp [stateAt, List.filter_cons, hq0, hq1, hq2,
              runU_conn_disc_conn t0 t1 t2 w1 w2 h2w, firePending, hf, h2, fireTimer]
          · have h2 : q < t1 + debounceMs := by omega
            simp [stateAt, List.filter_cons, hq0, hq1, hq2,
              runU_conn_disc_conn t0 t1 t2 w1 w2 h2w, firePending, hf, h2, fireTimer]
        · have hnd : ¬ (t1 + debounceMs ≤ q) := by omega
          simp [stateAt, List.filter_cons, hq0, hq1, hq2, runU_conn_then_disc, firePending,
            hnd]
      · have hq2 : ¬ (t2 ≤ q) := by omega
        simp [stateAt, List.filter_cons, hq0, hq1, hq2, runU, stepU, firePending, connU,
          PresenceState.start]
    · have hq1 : ¬ (t1 ≤ q) := by omega
      have hq2 : ¬ (t2 ≤ q) := by omega
      simp [stateAt, List.filter_cons, hq0, hq1, hq2, runU, firePending, PresenceState.start]

/-- C3 witness: the amended statement at connect time 0, disconnect time 10,
query time 200, reconnect (for the no-offline part) at time 100. -/
theorem c3_debounce_applies_to_offline_event_witness :
    (0:Nat) ≤ 10 ∧
    (reportsOnline (stateAt [(0, UOp.conn 1), (10, UOp.disc 1)] 200) = false ∧
      (stateAt [(0, UOp.conn 1), (10, UOp.disc 1)] 200).events = [(0, true)]) ∧
    ((stateAt [(0, UOp.conn 1), (10, UOp.disc 1), (100, UOp.conn 2)] 200).events.filter
      (fun e => e.2 = false)) = [] ∧
    get_online_user_ids true (MgrState.mk [] [] [] [] [])
      = .error (PyError.attributeError RMethod.smembers) := by
  have h := c3_debounce_applies_to_offline_event (MgrState.mk [] [] [] [] []) 0 10 1 200
    (by decide)
  exact ⟨by decide, h.1 (by decide) (by decide), h.2.2.1 100 2 (by decide) (by decide),
    h.2.2.2⟩

/-- C4 counterexample: user connects at 0 (session start 0), last connection
closes at 10, reconnect at 100 — inside the debounce window ending at 510.
The reconnect *does* emit a presence event (a second online broadcast) and
overwrites the session-start record from 0 to 100, refuting the claim that
no event of any kind is emitted and that the session record is unchanged. -/
theorem c4_flicker_emits_online_event :
    (100:Nat) < 10 + debounceMs ∧
    (stateAt [(0, UOp.conn 1), (10, UOp.disc 1), (100, UOp.conn 2)] 50).sessionStart
      = some 0 ∧
    (stateAt [(0, UOp.conn 1), (10, UOp.disc 1), (100, UOp.conn 2)] 1000).events
      = [(0, true), (100, true)] ∧
    (stateAt [(0, UOp.conn 1), (10, UOp.disc 1), (100, UOp.conn 2)] 1000).sessionStart
      = some 100 := by
  decide

/-- C4 amended: a reconnect within the debounce window does cancel the
pending offline transition — the timer finds the user connected again, so no
offline event ever fires and the session is not cleared — but because
`disconnect_user` already deleted the `user_connections` entry, the
reconnect is treated as a first connection: a fresh online presence event is
emitted and the session-start record is overwritten with the reconnect
time. -/
theorem c4_reconnect_cancels_pending_offline (t0 t1 t2 w1 w2 q : Nat) (h01 : t0 ≤ t1)
    (h12 : t1 < t2) (h2w : t2 < t1 + debounceMs) (hq : t2 ≤ q) :
    (stateAt [(t0, UOp.conn w1), (t1, UOp.disc w1), (t2, UOp.conn w2)] q).events
      = [(t0, true), (t2, true)] ∧
    (stateAt [(t0, UOp.conn w1), (t1, UOp.disc w1), (t2, UOp.conn w2)] q).sessionStart
      = some t2 ∧
    (stateAt [(t0, UOp.conn w1), (t1, UOp.disc w1), (t2, UOp.conn w2)] q).conns = [w2] := by
  have ht0 : t0 ≤ q := by omega
  have hq1 : t1 ≤ q := by omega
  by_cases hf : t1 + debounceMs ≤ q
  · have h2 : ¬ (q < t1 + debounceMs) := by omega
    simp [stateAt, List.filter_cons, ht0, hq1, hq, runU_conn_disc_conn t0 t1 t2 w1 w2 h2w,
      firePending, hf, h2, fireTimer]
  · have h2 : q < t1 + debounceMs := by omega
    simp [stateAt, List.filter_cons, ht0, hq1, hq, runU_conn_disc_conn t0 t1 t2 w1 w2 h2w,
      firePending, hf, h2, fireTimer]

/-- C4 witness: the amended statement at connect 0, disconnect 10, reconnect
100, observed at 1000 (after the window would have expired). -/
theorem c4_reconnect_cancels_pending_offline_witness :
    (100:Nat) < 10 + debounceMs ∧
    ((stateAt [(0, UOp.conn 1), (10, UOp.disc 1), (100, UOp.conn 2)] 1000).events
        = [(0, true), (100, true)] ∧
      (stateAt [(0, UOp.conn 1), (10, UOp.disc 1), (100, UOp.conn 2)] 1000).sessionStart
        = some 100 ∧
      (stateAt [(0, UOp.conn 1), (10, UOp.disc 1), (100, UOp.conn 2)] 1000).conns = [2]) :=
  ⟨by decide, c4_reconnect_cancels_pending_offline 0 10 100 1 2 1000 (by decide) (by decide)
    (by decide) (by decide)⟩

/-- The state of one rate key in the `RedisManager` store:
`_memory_cache["rate:" + key]` parsed as an int and the matching
`_memory_expiry` entry.  A real Redis backend gives the same fixed-window
`incr`/`expire`/TTL-delete semantics to the two fields.  Times are `Int`
(the code compares UTC datetimes). -/
structure FixedState where
  count : Option Nat
  expiry : Option Int
deriving DecidableEq, Repr

/-- `RedisManager.check_rate_limit(key, max_requests, window_seconds)`
(`redis_manager.py` lines 268-279) at time `now`: `incr` drops the key if
its expiry is strictly in the past (`_cleanup_expired`) and increments; a
post-increment count of 1 sets the expiry `window_seconds` ahead; the call
is allowed iff the new count is at most `max_requests`. -/
def check_rate_limit (max_requests : Nat) (window_seconds : Int) (s : FixedState)
    (now : Int) : FixedState × Bool :=
  let s1 : FixedState :=
    match s.expiry with
    | some e => if e < now then ⟨none, none⟩ else s
    | none => s
  let c := s1.count.getD 0 + 1
  let s2 : FixedState :=
    if c = 1 then ⟨some c, some (now + window_seconds)⟩ else ⟨some c, s1.expiry⟩
  (s2, c ≤ max_requests)

/-- The in-memory fallback path of `RateLimiter.check_limit`
(`rate_limit.py` lines 43-54) for one key at time `now`:
`_local_rate_limits[key]` keeps the timestamps of allowed requests; entries
at or before `now - window_seconds` are dropped, the call is refused when
`max_requests` entries remain, otherwise `now` is recorded and allowed. -/
def check_limit_local (max_requests : Nat) (window_seconds : Int) (l : List Int)
    (now : Int) : List Int × Bool :=
  let cutoff := now - window_seconds
  let kept := l.filter (fun t => cutoff < t)
  if max_requests ≤ kept.length then (kept, false)
  else (kept ++ [now], true)

/-- Combined per-key limiter state for the two modes of
`RateLimiter.check_limit`. -/
structure RLState where
  fixed : FixedState
  sliding : List Int
deriving DecidableEq, Repr

/-- The state of a fresh rate key: no counter, no recorded timestamps. -/
def RLState.start : RLState := ⟨⟨none, none⟩, []⟩

/-- `RateLimiter.check_limit(key, max_requests, window_seconds)`
(`rate_limit.py` lines 22-54): with `redis_manager.is_available` it runs the
fixed-window `check_rate_limit`, otherwise the in-memory path. -/
def check_limit (redisAvailable : Bool) (max_requests : Nat) (window_seconds : Int)
    (s : RLState) (now : Int) : RLState × Bool :=
  if redisAvailable then
    let r := check_rate_limit max_requests window_seconds s.fixed now
    ({ s with fixed := r.1 }, r.2)
  else
    let r := check_limit_local max_requests window_seconds s.sliding now
    ({ s with sliding := r.1 }, r.2)

/-- Run `check_limit` on one key over a list of call times, collecting the
per-call results. -/
def runLimit (redisAvailable : Bool) (max_requests : Nat) (window_seconds : Int) :
    RLState → List Int → RLState × List Bool
  | s, [] => (s, [])
  | s, t :: ts =>
    let r := check_limit redisAvailable max_requests window_seconds s t
    let rr := runLimit redisAvailable max_requests window_seconds r.1 ts
    (rr.1, r.2 :: rr.2)

/-- Splitting the result formula of a window run at its first call. -/
theorem range_map_le_succ (c m n : Nat) :
    (List.range (n + 1)).map (fun i => decide (c + i + 1 ≤ m))
      = decide (c + 1 ≤ m) :: (List.range n).map (fun i => decide (c + 1 + i + 1 ≤ m)) := by
  rw [List.range_succ_eq_map, List.map_cons, List.map_map]
  refine congrArg₂ _ rfl ?_
  apply List.map_congr_left
  intro i _
  have h : c + Nat.succ i = c + 1 + i := by omega
  simp [Function.comp, h]

/-- The head of the result formula for a fresh key is an allowed call. -/
theorem range_map_le_head (m n : Nat) (hm : 1 ≤ m) :
    (List.range (n + 1)).map (fun i => decide (i + 1 ≤ m))
      = true :: (List.range n).map (fun i => decide (1 + i + 1 ≤ m)) := by
  rw [List.range_succ_eq_map, List.map_cons, List.map_map]
  refine congrArg₂ _ ?_ ?_
  · simp only [decide_eq_true_eq]
    omega
  · apply List.map_congr_left
    intro i _
    have h : Nat.succ i + 1 = 1 + i + 1 := by omega
    simp [Function.comp, h]

/-- Fixed-window mode, all calls before the expiry `t0 + w`: the counter
just increments, the expiry never moves, and call `i` (0-based, after `c`
earlier calls) is allowed iff `c + i + 1 ≤ m`. -/
theorem runLimit_true_aux (m : Nat) (w t0 : Int) :
    ∀ (ts : List Int) (c : Nat) (l : List Int),
      (∀ t ∈ ts, t < t0 + w) → 1 ≤ c →
      runLimit true m w ⟨⟨some c, some (t0 + w)⟩, l⟩ ts
        = (⟨⟨some (c + ts.length), some (t0 + w)⟩, l⟩,
           (List.range ts.length).map (fun i => decide (c + i + 1 ≤ m))) := by
  intro ts
  induction ts with
  | nil => intro c l hb hc; simp [runLimit]
  | cons t ts ih =>
      intro c l hb hc
      have ht : t < t0 + w := hb t (List.mem_cons_self t ts)
      have hnd : ¬ (t0 + w < t) := by omega
      have hc1 : ¬ (c + 1 = 1) := by omega
      have hrec := ih (c + 1) l (fun x hx => hb x (List.mem_cons_of_mem t hx)) (by omega)
      simp only [runLimit, check_limit, check_rate_limit, if_pos rfl, hnd, if_false,
        Option.getD_some, hc1, reduceIte] at hrec ⊢
      rw [hrec]
      simp only [List.length_cons, range_map_le_succ]
      have hcount : c + 1 + ts.length = c + (ts.length + 1) := by omega
      rw [hcount]

/-- The in-memory path drops nothing when every recorded timestamp and the
call itself lie inside the window starting at `t0`. -/
theorem check_limit_local_inWindow (m : Nat) (w t0 tnow : Int) (l : List Int)
    (hb : ∀ x ∈ l, t0 ≤ x ∧ x < t0 + w) (htw : tnow < t0 + w) :
    check_limit_local m w l tnow
      = if m ≤ l.length then (l, false) else (l ++ [tnow], true) := by
  unfold check_limit_local
  have hkeep : l.filter (fun x => decide (tnow - w < x)) = l := by
    apply List.filter_eq_self.mpr
    intro a ha
    have := (hb a ha).1
    simp only [decide_eq_true_eq]
    omega
  simp [hkeep]

/-- Fallback mode, all calls inside the window of `t0`: call `i` (with `l`
already recorded) is allowed iff `l.length + i + 1 ≤ m`, the recorded list
keeps `t0`, stays bounded by the window and never exceeds `m` entries. -/
theorem runLimit_false_aux (m : Nat) (w t0 : Int) :
    ∀ (ts l : List Int) (f : FixedState),
      (∀ t ∈ ts, t0 ≤ t ∧ t < t0 + w) →
      (∀ x ∈ l, t0 ≤ x ∧ x < t0 + w) →
      t0 ∈ l → l.length ≤ m →
      (runLimit false m w ⟨f, l⟩ ts).2
          = (List.range ts.length).map (fun i => decide (l.length + i + 1 ≤ m))
      ∧ (∀ x ∈ (runLimit false m w ⟨f, l⟩ ts).1.sliding, t0 ≤ x ∧ x < t0 + w)
      ∧ t0 ∈ (runLimit false m w ⟨f, l⟩ ts).1.sliding
      ∧ (runLimit false m w ⟨f, l⟩ ts).1.sliding.length ≤ m
      ∧ (runLimit false m w ⟨f, l⟩ ts).1.fixed = f := by
  intro ts
  induction ts with
  | nil =>
      intro l f hb hlb hmem hlen
      exact ⟨by simp [runLimit], by simpa [runLimit] using hlb,
        by simpa [runLimit] using hmem, by simpa [runLimit] using hlen, by simp [runLimit]⟩
  | cons t ts ih =>
      intro l f hb hlb hmem hlen
      obtain ⟨ht0, htw⟩ := hb t (List.mem_cons_self t ts)
      have hbt : ∀ x ∈ ts, t0 ≤ x ∧ x < t0 + w := fun x hx => hb x (List.mem_cons_of_mem t hx)
      by_cases hcase : m ≤ l.length
      · have hle : l.length = m := le_antisymm hlen hcase
        have hrec := ih l f hbt hlb hmem hlen
        simp only [runLimit, check_limit, Bool.false_eq_true, if_false,
          check_limit_local_inWindow m w t0 t l hlb htw, hcase, if_true, List.length_cons]
        refine ⟨?_, hrec.2.1, hrec.2.2.1, hrec.2.2.2.1, hrec.2.2.2.2⟩
        rw [hrec.1, range_map_le_succ]
        have hhead : decide (l.length + 1 ≤ m) = false := by
          simp only [decide_eq_false_iff_not]
          omega
        have h1 : (List.range ts.length).map (fun i => decide (l.length + i + 1 ≤ m))
            = (List.range ts.length).map (fun _ => false) :=
          List.map_congr_left (fun i _ => by simp only [decide_eq_false_iff_not]; omega)
        have h2 : (List.range ts.length).map (fun i => decide (l.length + 1 + i + 1 ≤ m))
            = (List.range ts.length).map (fun _ => false) :=
          List.map_congr_left (fun i _ => by simp only [decide_eq_false_iff_not]; omega)
        rw [hhead, h1, h2]
      · have hrec := ih (l ++ [t]) f hbt
          (by
            intro x hx
            rcases List.mem_append.mp hx with h | h
            · exact hlb x h
            · simp only [List.mem_singleton] at h
              rw [h]
              exact ⟨ht0, htw⟩)
          (List.mem_append_left _ hmem)
          (by simp only [List.length_append, List.length_cons, List.length_nil]; omega)
        simp only [runLimit, check_limit, Bool.false_eq_true, if_false,
          check_limit_local_inWindow m w t0 t l hlb htw, hcase, if_true, List.length_cons]
        refine ⟨?_, hrec.2.1, hrec.2.2.1, hrec.2.2.2.1, hrec.2.2.2.2⟩
        rw [hrec.1, range_map_le_succ]
        have hhead : decide (l.length + 1 ≤ m) = true := by
          simp only [decide_eq_true_eq]
          omega
        have hlen2 : (l ++ [t]).length = l.length + 1 := by
          simp
        rw [hhead, hlen2]

/-- A filter that rejects some member of the list strictly shrinks it. -/
theorem filter_length_lt {α : Type} (l : List α) (p : α → Bool) (a : α) (ha : a ∈ l)
    (hp : p a = false) : (l.filter p).length < l.length := by
  induction l with
  | nil => cases ha
  | cons x xs ih =>
      rcases List.mem_cons.mp ha with h | h
      · subst h
        have := xs.length_filter_le p
        simp [List.filter_cons, hp]
        omega
      · by_cases hx : p x = true
        · have := ih h
          simp [List.filter_cons, hx]
          omega
        · have := xs.length_filter_le p
          simp [List.filter_cons, hx]
          omega

/-- A full in-window run of the fixed-window mode from a fresh key. -/
theorem runLimit_true_inWindow (m : Nat) (w t0 : Int) (rest : List Int)
    (hm : 1 ≤ m) (hrest : ∀ t ∈ rest, t0 ≤ t ∧ t < t0 + w) :
    runLimit true m w RLState.start (t0 :: rest)
      = (⟨⟨some (1 + rest.length), some (t0 + w)⟩, []⟩,
         (List.range (rest.length + 1)).map (fun i => decide (i + 1 ≤ m))) := by
  have h1 : check_limit true m w RLState.start t0
      = (⟨⟨some 1, some (t0 + w)⟩, []⟩, true) := by
    simp [check_limit, check_rate_limit, RLState.start, hm]
  simp only [runLimit, h1]
  rw [runLimit_true_aux m w t0 rest 1 [] (fun t ht => (hrest t ht).2) (le_refl 1)]
  rw [range_map_le_head m rest.length hm]

/-- A full in-window run of the fallback mode from a fresh key. -/
theorem runLimit_false_inWindow (m : Nat) (w t0 : Int) (rest : List Int)
    (hm : 1 ≤ m) (hw : 0 < w) (hrest : ∀ t ∈ rest, t0 ≤ t ∧ t < t0 + w) :
    (runLimit false m w RLState.start (t0 :: rest)).2
        = (List.range (rest.length + 1)).map (fun i => decide (i + 1 ≤ m))
    ∧ (∀ x ∈ (runLimit false m w RLState.start (t0 :: rest)).1.sliding, t0 ≤ x ∧ x < t0 + w)
    ∧ t0 ∈ (runLimit false m w RLState.start (t0 :: rest)).1.sliding
    ∧ (runLimit false m w RLState.start (t0 :: rest)).1.sliding.length ≤ m := by
  have hm0 : ¬ (m ≤ 0) := by omega
  have h1 : check_limit false m w RLState.start t0
      = (⟨⟨none, none⟩, [t0]⟩, true) := by
    simp [check_limit, check_limit_local, RLState.start, hm0]
  have haux := runLimit_false_aux m w t0 rest [t0] ⟨none, none⟩ hrest
    (by
      intro x hx
      simp only [List.mem_singleton] at hx
      rw [hx]
      exact ⟨le_refl t0, by omega⟩)
    (by simp)
    (by simp only [List.length_singleton]; omega)
  simp only [runLimit, h1]
  refine ⟨?_, haux.2.1, haux.2.2.1, haux.2.2.2.1⟩
  rw [haux.1, List.length_singleton, range_map_le_head m rest.length hm]

/-- C7: in both modes of `RateLimiter.check_limit`, a sequence of calls on a
fresh key all lying in the window `[t0, t0 + w)` of the first call produces
`true` for exactly the first `max_requests` calls and `false` for every
further call (call `i`, 0-based, is allowed iff `i + 1 ≤ max_requests`),
and a subsequent call strictly after the window, at `tq > t0 + w`, is
allowed again. -/
theorem c7_check_limit_window (avail : Bool) (max_requests : Nat) (w t0 tq : Int)
    (rest : List Int) (hm : 1 ≤ max_requests) (hw : 0 < w)
    (hrest : ∀ t ∈ rest, t0 ≤ t ∧ t < t0 + w) (hq : t0 + w < tq) :
    (runLimit avail max_requests w RLState.start (t0 :: rest)).2
      = (List.range (rest.length + 1)).map (fun i => decide (i + 1 ≤ max_requests)) ∧
    (check_limit avail max_requests w
      (runLimit avail max_requests w RLState.start (t0 :: rest)).1 tq).2 = true := by
  cases avail
  · obtain ⟨hres, hbnd, hmem, hlen⟩ :=
      runLimit_false_inWindow max_requests w t0 rest hm hw hrest
    refine ⟨hres, ?_⟩
    have hp : (decide (tq - w < t0)) = false := by
      simp only [decide_eq_false_iff_not]
      omega
    have hlt := filter_length_lt
      (runLimit false max_requests w RLState.start (t0 :: rest)).1.sliding
      (fun x => decide (tq - w < x)) t0 hmem hp
    have hnle : ¬ (max_requests ≤
        ((runLimit false max_requests w RLState.start (t0 :: rest)).1.sliding.filter
          (fun x => decide (tq - w < x))).length) := by omega
    simp only [check_limit, Bool.false_eq_true, if_false, check_limit_local]
    simp [hnle]
  · rw [runLimit_true_inWindow max_requests w t0 rest hm hrest]
    refine ⟨rfl, ?_⟩
    simp [check_limit, check_rate_limit, hq, hm]

/-- C7 witness: key `"k"`-style scenario of the spec — limit 3 per 60s,
calls at 0, 1, 2, 3 give true, true, true, false, and a call at 61 is
allowed again (fixed-window mode shown). -/
theorem c7_check_limit_window_witness :
    (1 ≤ 3) ∧ (0:Int) + 60 < 61 ∧
    (runLimit true 3 60 RLState.start [0, 1, 2, 3]).2 = [true, true, true, false] ∧
    (check_limit true 3 60 (runLimit true 3 60 RLState.start [0, 1, 2, 3]).1 61).2 = true := by
  have h := c7_check_limit_window true 3 60 0 61 [1, 2, 3] (by decide) (by decide)
    (by decide) (by decide)
  exact ⟨by decide, by decide, by rw [h.1]; decide, h.2⟩

/-- C8 counterexample: the two modes of `RateLimiter.check_limit` are not
equivalent across window boundaries.  With `max_requests = 2`,
`window_seconds = 10` and calls at times 0, 9, 12, 13, the real-backend
fixed window (which expires wholesale at 10 and restarts at 12) answers
true, true, true, true, while the in-memory fallback (which still sees the
calls at 9 and 12 inside the sliding window at 13) answers true, true,
true, false. -/
theorem c8_modes_diverge_across_window :
    (runLimit true 2 10 RLState.start [0, 9, 12, 13]).2 = [true, true, true, true] ∧
    (runLimit false 2 10 RLState.start [0, 9, 12, 13]).2 = [true, true, true, false] ∧
    (runLimit true 2 10 RLState.start [0, 9, 12, 13]).2
      ≠ (runLimit false 2 10 RLState.start [0, 9, 12, 13]).2 := by
  decide

/-- C8 amended: the two modes agree on every call sequence on a fresh key
that stays within one window of its first call — both answer true for
exactly the first `max_requests` calls and false for the rest — but they
may diverge on calls made after a window boundary. -/
theorem c8_modes_agree_within_window (max_requests : Nat) (w t0 : Int) (rest : List Int)
    (hm : 1 ≤ max_requests) (hw : 0 < w)
    (hrest : ∀ t ∈ rest, t0 ≤ t ∧ t < t0 + w) :
    (runLimit true max_requests w RLState.start (t0 :: rest)).2
      = (runLimit false max_requests w RLState.start (t0 :: rest)).2 := by
  rw [runLimit_true_inWindow max_requests w t0 rest hm hrest,
    (runLimit_false_inWindow max_requests w t0 rest hm hw hrest).1]

/-- C8 witness: the agreement applied to limit 3 per 60s with calls at 0,
1, 2, 3. -/
theorem c8_modes_agree_within_window_witness :
    (1 ≤ 3) ∧
    (runLimit true 3 60 RLState.start [0, 1, 2, 3]).2
      = (runLimit false 3 60 RLState.start [0, 1, 2, 3]).2 :=
  ⟨by decide, c8_modes_agree_within_window 3 60 0 [1, 2, 3] (by decide) (by decide)
    (by decide)⟩

/-- The `RedisManager` singleton state relevant to its failure semantics
(`redis_manager.py` lines 24-33): connection flags and the in-memory
fallback stores.  Keys, values and subscriber callbacks are abstracted as
`Nat`. -/
structure StoreState where
  is_connected : Bool
  fallback_mode : Bool
  memory_cache : List (Nat × Nat)
  memory_expiry : List (Nat × Int)
  local_subscribers : List (Nat × List Nat)
deriving DecidableEq, Repr

/-- `RedisManager._cleanup_expired()` (`redis_manager.py` lines 313-319) at
time `now`: drop every key whose expiry is strictly in the past from both
the cache and the expiry table. -/
def cleanup_expired (s : StoreState) (now : Int) : StoreState :=
  { s with
      memory_cache := s.memory_cache.filter (fun e =>
        match dictGet s.memory_expiry e.1 with
        | some ex => !(decide (ex < now))
        | none => true),
      memory_expiry := s.memory_expiry.filter (fun e => ¬ (e.2 < now)) }

/-- `RedisManager.connect(redis_url)` (`redis_manager.py` lines 35-59).
`handshakeFails` models a failing `from_url` or `ping`; both the missing
URL and the caught handshake exception only set `_fallback_mode`, and the
method never raises. -/
def rm_connect (s : StoreState) (url : Option Nat) (handshakeFails : Bool) :
    StoreState × Option PyError :=
  match url with
  | none => ({ s with fallback_mode := true }, none)
  | some _ =>
      if handshakeFails then ({ s with fallback_mode := true }, none)
      else ({ s with is_connected := true, fallback_mode := false }, none)

/-- `RedisManager.get(key)` (`redis_manager.py` lines 74-83) at time `now`.
`backendFails` injects a failure of the real-backend call with `backendVal`
its value on success; the caught failure degrades the single call to a
direct memory-cache read. -/
def rm_get (s : StoreState) (key : Nat) (now : Int) (backendFails : Bool)
    (backendVal : Option Nat) : StoreState × Option Nat × Option PyError :=
  if s.fallback_mode then
    let s1 := cleanup_expired s now
    (s1, dictGet s1.memory_cache key, none)
  else
    if backendFails then (s, dictGet s.memory_cache key, none)
    else (s, backendVal, none)

/-- `RedisManager.incr(key)` (`redis_manager.py` lines 112-125) at time
`now`, with the same per-call failure injection. -/
def rm_incr (s : StoreState) (key : Nat) (now : Int) (backendFails : Bool)
    (backendCount : Nat) : StoreState × Nat × Option PyError :=
  if s.fallback_mode then
    let s1 := cleanup_expired s now
    let v := (dictGet s1.memory_cache key).getD 0 + 1
    ({ s1 with memory_cache := dictSet s1.memory_cache key v }, v, none)
  else
    if backendFails then
      let v := (dictGet s.memory_cache key).getD 0 + 1
      ({ s with memory_cache := dictSet s.memory_cache key v }, v, none)
    else (s, backendCount, none)

/-- A message passed to `RedisManager.publish`: `serializable` records
whether `json.dumps(message)` succeeds, `payload` abstracts the content. -/
structure PubMsg where
  serializable : Bool
  payload : Nat
deriving DecidableEq, Repr

/-- Effects of `RedisManager.publish`: fire-and-forget local callback
tasks, or a message sent to the real backend. -/
inductive StoreEmit
  | callbackTask (callback payload : Nat)
  | backendPublish (channel payload : Nat)
deriving DecidableEq, Repr

/-- `RedisManager.publish(channel, message)` (`redis_manager.py` lines
203-224).  `msg_str = json.dumps(message)` runs before the mode test and
before any `try`, so a serialization failure raises `TypeError` to the
caller in both modes; otherwise the fallback branch dispatches to the local
subscribers, and a caught backend failure degrades to the same local
dispatch. -/
def rm_publish (s : StoreState) (channel : Nat) (message : PubMsg)
    (backendFails : Bool) : StoreState × List StoreEmit × Option PyError :=
  if message.serializable = false then (s, [], some PyError.typeError)
  else
    let localDispatch :=
      ((dictGet s.local_subscribers channel).getD []).map
        (fun cb => StoreEmit.callbackTask cb message.payload)
    if s.fallback_mode then (s, localDispatch, none)
    else
      if backendFails then (s, localDispatch, none)
      else (s, [StoreEmit.backendPublish channel message.payload], none)

/-- C9: `connect` never raises (missing URL and failing handshake both just
enter fallback mode), and a failing single operation after a successful
connect is caught, served from the in-memory path and leaves
`_fallback_mode` untouched (shown for `get` and `incr`) — but the claimed
"no serialization exception propagates" fails: `publish` serializes the
message before its `try`/`except`, so a non-JSON-serializable message
raises `TypeError` to the caller in every mode. -/
theorem c9_store_failure_semantics (s : StoreState) (u key ch : Nat) (now : Int)
    (bv : Option Nat) (bc p : Nat) :
    (rm_connect s none false).2 = none ∧
    (rm_connect s none false).1.fallback_mode = true ∧
    (rm_connect s (some u) true).2 = none ∧
    (rm_connect s (some u) true).1.fallback_mode = true ∧
    (rm_get s key now true bv).2.2 = none ∧
    (rm_get s key now true bv).1.fallback_mode = s.fallback_mode ∧
    (rm_incr s key now true bc).2.2 = none ∧
    (rm_incr s key now true bc).1.fallback_mode = s.fallback_mode ∧
    (rm_publish s ch ⟨false, p⟩ false).2.2 = some PyError.typeError ∧
    (rm_publish s ch ⟨false, p⟩ true).2.2 = some PyError.typeError := by
  refine ⟨rfl, rfl, rfl, rfl, ?_, ?_, ?_, ?_, rfl, rfl⟩
  all_goals by_cases hf : s.fallback_mode <;>
    simp [rm_get, rm_incr, cleanup_expired, hf]
